import Mathlib

/-
Verification of app/api/gemini_api.py (PDF OCR + Gemini LLM extraction
service).  Python strings are modelled as Lean String over code points,
Python whitespace as the ASCII whitespace set that the service's inputs
use, exceptions as Except values, and the three external services
(temp-file system calls, pdf2image+pytesseract OCR, the Gemini client,
json.loads) as an explicit environment record.
-/

/-- The characters Python treats as whitespace in str.split, str.strip and
the regular-expression class backslash-s (restricted to ASCII; the service
never feeds non-ASCII whitespace through these paths). -/
def isPySpace (c : Char) : Bool :=
  c == ' ' || c == '\t' || c == '\n' || c == '\r' || c == '\x0b' || c == '\x0c'

/-- Python str.strip(): drop leading and trailing whitespace. -/
def pyStrip (s : String) : String :=
  ⟨((s.toList.dropWhile isPySpace).reverse.dropWhile isPySpace).reverse⟩

/-- Python slicing text[:n] over code points. -/
def pyTake (s : String) (n : Nat) : String :=
  ⟨s.toList.take n⟩

/-- Python str.startswith over code points. -/
def pyStartsWith (s p : String) : Bool :=
  decide (s.toList.take p.toList.length = p.toList)

/-- Python str.endswith over code points. -/
def pyEndsWith (s p : String) : Bool :=
  decide (s.toList.reverse.take p.toList.length = p.toList.reverse)

/-- Helper for Python str.split(): scan the characters, accumulating the
current word in reverse in acc; whitespace flushes the word. -/
def wordsAux : List Char → List Char → List (List Char)
  | [], acc => if acc.isEmpty then [] else [acc.reverse]
  | c :: t, acc =>
    if isPySpace c then
      if acc.isEmpty then wordsAux t [] else acc.reverse :: wordsAux t []
    else
      wordsAux t (c :: acc)

/-- Python str.split() with no separator: the maximal whitespace-free runs. -/
def wordsOf (l : List Char) : List (List Char) :=
  wordsAux l []

/-- " ".join(ws) at the character-list level. -/
def joinSep : List (List Char) → List Char
  | [] => []
  | [w] => w
  | w :: w2 :: ws => w ++ ' ' :: joinSep (w2 :: ws)

/-- gemini_api.py lines 47-52, clean_text: " ".join(text.split()).
The except branch there is unreachable for str inputs (join and split on a
str do not raise), so the function is its try branch. -/
def clean_text (s : String) : String :=
  ⟨joinSep (wordsOf s.toList)⟩

/-- Match a literal string prefix against a character list, returning the
remainder when it matches. -/
def dropLit : List Char → List Char → Option (List Char)
  | [], l => some l
  | _ :: _, [] => none
  | p :: ps, c :: cs => if c == p then dropLit ps cs else none

/-- After the captured closing brace, the regex requires backslash-s-star
then the closing fence.  The greedy whitespace run never needs to backtrack:
the next literal is a backtick, which is not whitespace. -/
def fenceAfterWs (l : List Char) : Bool :=
  (dropLit "```".toList (l.dropWhile isPySpace)).isSome

/-- The lazy dot-star-question of the fenced-block regex: scan for the first
closing brace that is followed by optional whitespace and the closing fence;
every earlier character (closing braces with a bad tail included) is
consumed by the lazy gap.  acc holds the consumed gap in reverse; the
returned capture is the full group: open brace, gap, close brace. -/
def findLazyClose : List Char → List Char → Option (List Char)
  | _, [] => none
  | acc, c :: rest =>
    if c == '\x7d' && fenceAfterWs rest then
      some (('\x7b' :: acc.reverse) ++ ['\x7d'])
    else
      findLazyClose (c :: acc) rest

/-- One anchored attempt of the Python regex (gemini_api.py line 137) at
the head of l.  The optional json tag never needs regex backtracking: if
the literal json follows the fence, the empty alternative would leave the
scanner at the letter j, which is neither whitespace nor an open brace, so
both alternatives fail together; hence consuming json exactly when present
is the regex's semantics. -/
def matchFenceAt (l : List Char) : Option (List Char) :=
  match dropLit "```".toList l with
  | none => none
  | some r1 =>
    let r2 := match dropLit "json".toList r1 with
      | some r => r
      | none => r1
    match r2.dropWhile isPySpace with
    | [] => none
    | c :: rest => if c == '\x7b' then findLazyClose [] rest else none

/-- re.search: try every start position left to right. -/
def reSearchFenced : List Char → Option (List Char)
  | [] => none
  | c :: t =>
    match matchFenceAt (c :: t) with
    | some cap => some cap
    | none => reSearchFenced t

/-- The fenced-code-block search of gemini_api.py line 137:
re.search of a code fence, an optional json tag, whitespace, a lazily
captured brace-delimited span, whitespace, and a closing fence, with
dot-matches-newline.  Returns group(1). -/
def fencedJsonSearch (s : String) : Option String :=
  (reSearchFenced s.toList).map (fun cs => ⟨cs⟩)

/-- JSON values as json.loads decodes them (numbers restricted to the
integers the service's forms use). -/
inductive Json where
  | null
  | bool (b : Bool)
  | num (n : Int)
  | str (s : String)
  | arr (xs : List Json)
  | obj (fields : List (String × Json))

/-- A decoded top-level JSON object, i.e. a Python dict from json.loads.
Both json.loads call sites in gemini_api.py receive text that starts with
an open brace (the startswith guard on line 132, and the regex capture of
line 137 whose group starts at an open brace), so a faithful json.loads
either raises (the error message) or yields a dict. -/
abbrev JsonObj := List (String × Json)

mutual

/-- Python repr of a decoded JSON value (string escaping elided; the
service only formats plain strings through this path). -/
def pyRepr : Json → String
  | .null => "None"
  | .bool true => "True"
  | .bool false => "False"
  | .num n => toString n
  | .str s => "\x27" ++ s ++ "\x27"
  | .arr xs => "[" ++ pyReprList xs ++ "]"
  | .obj fs => "\x7b" ++ pyReprFields fs ++ "\x7d"

/-- Comma-separated reprs of a list of values. -/
def pyReprList : List Json → String
  | [] => ""
  | [x] => pyRepr x
  | x :: y :: xs => pyRepr x ++ ", " ++ pyReprList (y :: xs)

/-- Comma-separated key: value reprs of dict entries. -/
def pyReprFields : List (String × Json) → String
  | [] => ""
  | [(k, v)] => "\x27" ++ k ++ "\x27: " ++ pyRepr v
  | (k, v) :: y :: fs => "\x27" ++ k ++ "\x27: " ++ pyRepr v ++ ", " ++ pyReprFields (y :: fs)

end

/-- Python str() of a decoded JSON value, as used by the f-string on
gemini_api.py line 212: a str formats as itself, every other value as its
repr. -/
def pyFormat : Json → String
  | .str s => s
  | v => pyRepr v

/-- Python dict membership plus lookup: the value under key k, if present
(json.loads dicts have unique keys). -/
def lookupKey (o : JsonObj) (k : String) : Option Json :=
  (o.find? (fun p => p.1 == k)).map Prod.snd

/-- The default extraction prompt of gemini_api.py lines 74-110,
transcribed line by line. -/
def default_prompt : String :=
  "You are a PDF form data extraction assistant. Analyze the provided text from a scanned form and extract all relevant fields and their values into a structured JSON object with the actual data values.\n"
  ++ "\n"
  ++ "Rules:\n"
  ++ "1. Extract all field labels and their corresponding values from the form\n"
  ++ "2. Group related fields into nested objects (e.g., \"applicantDetails\", \"contactInfo\", \"serviceRequest\")\n"
  ++ "3. Use descriptive field names in camelCase\n"
  ++ "4. For checkboxes/radio buttons, use boolean values (true/false) or the selected option as a string\n"
  ++ "5. Extract dates as strings in the format found in the document\n"
  ++ "6. Extract numbers as numbers (not strings) when they represent quantities, amounts, etc.\n"
  ++ "7. Return ONLY the actual data values extracted from the form, NOT a JSON Schema\n"
  ++ "8. Create a hierarchical structure that reflects the form\x27s organization\n"
  ++ "9. Do not hallucinate data - only extract what is clearly present in the text\n"
  ++ "10. If a field is empty or unclear, you can omit it or set it to null\n"
  ++ "\n"
  ++ "Example format for extracted data (NOT a schema):\n"
  ++ "\x7b\n"
  ++ "  \"formType\": \"ATM Card Application\",\n"
  ++ "  \"applicantDetails\": \x7b\n"
  ++ "    \"fullName\": \"Ramaiah M\",\n"
  ++ "    \"dateOfBirth\": \"1985-06-12\",\n"
  ++ "    \"nationalId\": \"123456789\"\n"
  ++ "  \x7d,\n"
  ++ "  \"contactInfo\": \x7b\n"
  ++ "    \"phoneNumber\": \"+1234567890\",\n"
  ++ "    \"email\": \"ramaiahm@example.com\",\n"
  ++ "    \"address\": \"123 Main Street\"\n"
  ++ "  \x7d,\n"
  ++ "  \"serviceRequest\": \x7b\n"
  ++ "    \"requestATMCard\": true,\n"
  ++ "    \"requestMobileBanking\": false,\n"
  ++ "    \"requestSMS\": true\n"
  ++ "  \x7d\n"
  ++ "\x7d\n"
  ++ "\n"
  ++ "Now extract the actual field values from this text:\n"
  ++ "\n"

/-- gemini_api.py lines 112-113: pick the prompt (Python truthiness: an
empty custom prompt falls back to the default) and append the text
truncated to its first 15000 code points, separated by a blank line. -/
def full_prompt (text : String) (custom_prompt : Option String) : String :=
  let prompt := match custom_prompt with
    | some c => if c == "" then default_prompt else c
    | none => default_prompt
  prompt ++ "\n\n" ++ pyTake text 15000

/-- A raised exception's HTTP shape: fastapi.HTTPException carries a status
code and a detail string. -/
structure HTTPExc where
  status_code : Nat
  detail : String
deriving DecidableEq

/-- Python str() of an HTTPException (starlette defines it as
"status_code: detail"). -/
def strHTTPExc (e : HTTPExc) : String :=
  toString e.status_code ++ ": " ++ e.detail

/-- gemini_api.py lines 59-62: the loop appending each page's OCR text plus
a newline to the accumulator. -/
def concatPages (pages : List String) : String :=
  String.join (pages.map (fun p => p ++ "\n"))

/-- gemini_api.py lines 54-68, extract_text_from_pdf_ocr: rasterize and
OCR each page (modelled as the environment-provided page texts, or the
exception message when pdf2image/pytesseract raise), concatenate each page
text with a trailing newline, and clean the result; any failure is
re-raised as HTTPException 500 with the "OCR extraction failed: " detail. -/
def extract_text_from_pdf_ocr (ocrPages : Except String (List String)) : Except HTTPExc String :=
  match ocrPages with
  | .ok pages => .ok (clean_text (concatPages pages))
  | .error e => .error ⟨500, "OCR extraction failed: " ++ e⟩

/-- Outcome of the Gemini generate_content call of gemini_api.py lines
120-128: the asyncio.TimeoutError branch, any other raised exception (its
message), or a completed response whose text attribute is the payload. -/
inductive GenOutcome where
  | timeout
  | exc (msg : String)
  | text (t : String)

/-- gemini_api.py lines 131-142, the JSON-recovery block on the stripped
response text: direct parse when it starts with an open brace, else parse
the fenced-block capture when the regex finds one, else wrap the text under
the rawResponse key.  loads is json.loads: either the decoded dict or the
raised message. -/
def parse_llm_response (loads : String → Except String JsonObj)
    (response_text : String) : Except String JsonObj :=
  if pyStartsWith response_text "\x7b" then
    loads response_text
  else
    match fencedJsonSearch response_text with
    | some cap => loads cap
    | none => .ok [("rawResponse", Json.str response_text)]

/-- gemini_api.py lines 70-151, extract_structured_data_with_gemini: build
the prompt, call Gemini on it, and recover a JSON object from the response.
The try block spans the API call and both json.loads sites, so a timeout
returns the fixed one-key error dict, and any other exception (json.loads
failures included) returns its message under the error key. -/
def extract_structured_data_with_gemini (loads : String → Except String JsonObj)
    (llm : String → GenOutcome) (text : String) (custom_prompt : Option String) : JsonObj :=
  let fp := full_prompt text custom_prompt
  match llm fp with
  | .timeout => [("error", Json.str "API timeout - request took too long")]
  | .exc m => [("error", Json.str m)]
  | .text t =>
    match parse_llm_response loads (pyStrip t) with
    | .ok v => v
    | .error m => [("error", Json.str m)]

/-- gemini_api.py lines 41-44: the pydantic response model.  error
defaults to None, as in the success-path construction on lines 217-220. -/
structure LLMResponse where
  success : Bool
  data : JsonObj
  error : Option String := none

/-- What the HTTP layer sends for one request: either an HTTPException
propagated to the framework (status plus detail) or a 200 response carrying
the envelope. -/
inductive HttpResult where
  | httpError (status_code : Nat) (detail : String)
  | envelope (r : LLMResponse)

/-- Request-scoped observations: whether the transient file was created,
whether it still exists when the request terminates, and whether the OCR
stage and the Gemini call were reached. -/
structure Trace where
  tempCreated : Bool
  tempExistsAtEnd : Bool
  ocrCalled : Bool
  llmCalled : Bool
deriving DecidableEq

/-- The request's environment: outcomes of every external operation the
handler performs, in program order.  tmpCreate is NamedTemporaryFile,
readUpload is await file.read(), writeTemp is temp_file.write, ocrPages
the rasterize-and-OCR stage, llm the Gemini call on the assembled prompt,
loads is json.loads, and unlinkOk tells whether os.unlink succeeds when it
is reached with a bound path. -/
structure Env where
  tmpCreate : Except String Unit
  readUpload : Except String Unit
  writeTemp : Except String Unit
  ocrPages : Except String (List String)
  llm : String → GenOutcome
  loads : String → Except String JsonObj
  unlinkOk : Bool

/-- gemini_api.py lines 173-236, the extract_pdf handler.

Control-flow notes, mirrored branch by branch:
- a filename not ending in ".pdf" raises HTTPException 400 before the try,
  so it reaches the framework as a 400 and no stage runs;
- every exception inside the try, the OCR stage's HTTPException included
  (HTTPException subclasses Exception), is caught by the generic handler
  and becomes a 200 envelope with the "Processing failed: " prefix;
- the finally block runs "if temp_file: os.unlink(temp_file_path)" inside
  a bare except.  When readUpload or writeTemp raised, temp_file is bound
  but temp_file_path was never assigned, so the unlink raises NameError,
  the bare except swallows it, and the created file survives the request;
  once temp_file_path is assigned, the file survives only if unlink fails
  (its exception is likewise swallowed). -/
def extract_pdf (env : Env) (filename : String) : HttpResult × Trace :=
  if pyEndsWith filename ".pdf" = false then
    (.httpError 400 "Only PDF files are supported", ⟨false, false, false, false⟩)
  else
    match env.tmpCreate with
    | .error m => (.envelope ⟨false, [], some ("Processing failed: " ++ m)⟩,
                   ⟨false, false, false, false⟩)
    | .ok _ =>
      match env.readUpload with
      | .error m => (.envelope ⟨false, [], some ("Processing failed: " ++ m)⟩,
                     ⟨true, true, false, false⟩)
      | .ok _ =>
        match env.writeTemp with
        | .error m => (.envelope ⟨false, [], some ("Processing failed: " ++ m)⟩,
                       ⟨true, true, false, false⟩)
        | .ok _ =>
          let tempLeft : Bool := !env.unlinkOk
          match extract_text_from_pdf_ocr env.ocrPages with
          | .error e => (.envelope ⟨false, [], some ("Processing failed: " ++ strHTTPExc e)⟩,
                         ⟨true, tempLeft, true, false⟩)
          | .ok extracted_text =>
            if extracted_text = "" ∨ (pyStrip extracted_text).length < 10 then
              (.envelope ⟨false, [], some "No text could be extracted from the PDF."⟩,
               ⟨true, tempLeft, true, false⟩)
            else
              let structured := extract_structured_data_with_gemini env.loads env.llm extracted_text none
              match lookupKey structured "error" with
              | some v =>
                if structured.length = 1 then
                  (.envelope ⟨false, [], some ("AI extraction failed: " ++ pyFormat v)⟩,
                   ⟨true, tempLeft, true, true⟩)
                else
                  (.envelope ⟨true, structured, none⟩, ⟨true, tempLeft, true, true⟩)
              | none => (.envelope ⟨true, structured, none⟩, ⟨true, tempLeft, true, true⟩)

/-- The span the parser commits to parsing as JSON, when there is one: the
whole stripped response text when it starts with an open brace, else the
fenced-block capture. -/
def matchedSpan (rt : String) : Option String :=
  if pyStartsWith rt "\x7b" then some rt else fencedJsonSearch rt

/-- Modelled from the spec wording of claim C3: the number of
non-whitespace characters of the normalized text after trimming (the code
instead tests the full length of the trimmed text, interior spaces
included). -/
def specNonWsCount (s : String) : Nat :=
  ((pyStrip s).toList.filter (fun c => !(isPySpace c))).length

/-- No two adjacent characters are both whitespace: every whitespace run
has length one. -/
def okRun : List Char → Bool
  | [] => true
  | [_] => true
  | a :: b :: t => (!(isPySpace a && isPySpace b)) && okRun (b :: t)

/-- A request environment in which every stage succeeds, OCR yields ample
text, the model answers with a JSON-looking span, and json.loads rejects
that span. -/
def envParseFail : Env :=
  { tmpCreate := .ok ()
    readUpload := .ok ()
    writeTemp := .ok ()
    ocrPages := .ok ["This is a long enough extracted text from the scan"]
    llm := fun _ => .text "\x7bnope"
    loads := fun _ => .error "Expecting value"
    unlinkOk := true }

/-- Same request, but rasterization raises with message boom. -/
def envOcrFail : Env :=
  { envParseFail with ocrPages := .error "boom" }

/-- Same request, but OCR yields text with eight non-whitespace characters
spread over four words, and the model answers plain prose. -/
def envShortMiss : Env :=
  { envParseFail with
    ocrPages := .ok ["ab cd ef gh"]
    llm := fun _ => .text "hello" }

/-- Same request, but OCR yields two characters, short-circuiting the
pipeline. -/
def envShort : Env :=
  { envParseFail with ocrPages := .ok ["ab"] }

/-- Same request, but reading the upload raises after the temp file was
created. -/
def envReadFail : Env :=
  { envParseFail with readUpload := .error "client disconnected" }

/-- Same request, but the model answers prose with no JSON span at all. -/
def envRawFallback : Env :=
  { envParseFail with llm := fun _ => .text "no json here" }

/-- A json.loads that decodes the double-quoted error object and rejects
everything else. -/
def loadsErrObj : String → Except String JsonObj := fun s =>
  if s == "\x7b\"error\": \"x\"\x7d" then .ok [("error", Json.str "x")] else .error "nope"

/-- Same request, but the model answers with the valid JSON object whose
single key is error. -/
def envErrJson : Env :=
  { envParseFail with
    llm := fun _ => .text "\x7b\"error\": \"x\"\x7d"
    loads := loadsErrObj }

/-- C8 (code bug): in the environment where reading the upload raises after
the temp file was created, the handler still answers with the generic
processing-failure envelope, but the transient file survives the request:
the finally block's unlink call names temp_file_path, which was never
assigned on this path, and the resulting NameError is swallowed by the
bare except. -/
theorem C8_temp_file_leak :
    (extract_pdf envReadFail "a.pdf").2.tempCreated = true ∧
    (extract_pdf envReadFail "a.pdf").2.tempExistsAtEnd = true ∧
    (extract_pdf envReadFail "a.pdf").1
      = HttpResult.envelope ⟨false, [], some "Processing failed: client disconnected"⟩ :=
  ⟨rfl, rfl, rfl⟩

/-- C1 (counterexample): when the response text is a JSON-looking span that
json.loads rejects with message "Expecting value", the envelope's error is
"AI extraction failed: Expecting value" - it does not carry the
"Processing failed: " prefix the claim requires, because the parse failure
is caught inside extract_structured_data_with_gemini, not by the top-level
handler. -/
theorem C1_counterexample :
    (extract_pdf envParseFail "a.pdf").1
      = HttpResult.envelope ⟨false, [], some "AI extraction failed: Expecting value"⟩ ∧
    pyStartsWith "AI extraction failed: Expecting value" "Processing failed: " = false :=
  ⟨rfl, by decide⟩

/-- C2 (counterexample): when rasterization raises with message boom, the
request is answered with a 200 envelope (success false, error
"Processing failed: 500: OCR extraction failed: boom"), not with the HTTP
500 the claim requires: the OCR stage's HTTPException is caught by the
handler's generic except clause. -/
theorem C2_counterexample :
    (extract_pdf envOcrFail "a.pdf").1
      = HttpResult.envelope
          ⟨false, [], some "Processing failed: 500: OCR extraction failed: boom"⟩ ∧
    (extract_pdf envOcrFail "a.pdf").1
      ≠ HttpResult.httpError 500 "OCR extraction failed: boom" := by
  refine ⟨rfl, ?_⟩
  intro h
  rw [show (extract_pdf envOcrFail "a.pdf").1
      = HttpResult.envelope
          ⟨false, [], some "Processing failed: 500: OCR extraction failed: boom"⟩ from rfl] at h
  exact HttpResult.noConfusion h

/-- C3 (counterexample): the OCR text "ab cd ef gh" normalizes to itself,
has eight non-whitespace characters (fewer than ten), yet the pipeline does
not short-circuit: the code tests the length of the trimmed string, which
is eleven with its interior spaces, so the Gemini call is attempted and the
request succeeds with the rawResponse fallback instead of the fixed
no-text failure envelope. -/
theorem C3_counterexample :
    specNonWsCount (clean_text (concatPages ["ab cd ef gh"])) < 10 ∧
    (extract_pdf envShortMiss "a.pdf").1
      = HttpResult.envelope ⟨true, [("rawResponse", Json.str "hello")], none⟩ ∧
    (extract_pdf envShortMiss "a.pdf").2.llmCalled = true ∧
    (extract_pdf envShortMiss "a.pdf").1
      ≠ HttpResult.envelope ⟨false, [], some "No text could be extracted from the PDF."⟩ := by
  refine ⟨by decide, rfl, rfl, ?_⟩
  intro h
  rw [show (extract_pdf envShortMiss "a.pdf").1
      = HttpResult.envelope ⟨true, [("rawResponse", Json.str "hello")], none⟩ from rfl] at h
  simp at h

/-- C4: every envelope the extract-pdf handler produces satisfies the
invariant: success implies the error field is absent (None), and failure
implies the data mapping is empty. -/
theorem C4_envelope_invariant (env : Env) (fn : String) (r : LLMResponse)
    (h : (extract_pdf env fn).1 = HttpResult.envelope r) :
    (r.success = true → r.error = none) ∧ (r.success = false → r.data = []) := by
  unfold extract_pdf at h
  repeat' split at h
  all_goals simp only [] at h
  all_goals repeat' split at h
  all_goals (try cases h)
  all_goals simp_all

/-- C4 witness: the invariant instantiated at the short-circuit envelope of
a request whose OCR yields only two characters. -/
theorem C4_envelope_invariant_witness :
    ((⟨false, [], some "No text could be extracted from the PDF."⟩ : LLMResponse).success = true →
      (⟨false, [], some "No text could be extracted from the PDF."⟩ : LLMResponse).error = none) ∧
    ((⟨false, [], some "No text could be extracted from the PDF."⟩ : LLMResponse).success = false →
      (⟨false, [], some "No text could be extracted from the PDF."⟩ : LLMResponse).data = []) :=
  C4_envelope_invariant envShort "a.pdf" _ rfl

/-- Committing to a matched span makes the parser call json.loads on it:
both the direct-parse case and the fenced-capture case. -/
theorem parse_of_matchedSpan (loads : String → Except String JsonObj) (rt sp : String)
    (h : matchedSpan rt = some sp) : parse_llm_response loads rt = loads sp := by
  unfold matchedSpan at h
  unfold parse_llm_response
  split at h
  · injection h with h2
    subst h2
    simp [*]
  · simp [*]

/-- C1 (amended): when the pipeline reaches the Gemini call, the response
text contains a JSON-looking span (direct or fenced) and json.loads rejects
it with message m, the parse failure is caught inside
extract_structured_data_with_gemini, which returns the one-key error
mapping; the handler translates it into a success=false envelope whose
error is "AI extraction failed: " plus the parse exception's message, and
the parser never falls through to the rawResponse fallback. -/
theorem C1_parse_failure (env : Env) (fn : String) (pages : List String) (t sp m : String)
    (hfn : pyEndsWith fn ".pdf" = true)
    (h1 : env.tmpCreate = .ok ()) (h2 : env.readUpload = .ok ())
    (h3 : env.writeTemp = .ok ()) (h4 : env.ocrPages = .ok pages)
    (h5 : ¬(clean_text (concatPages pages) = ""
            ∨ (pyStrip (clean_text (concatPages pages))).length < 10))
    (h6 : env.llm (full_prompt (clean_text (concatPages pages)) none) = .text t)
    (h7 : matchedSpan (pyStrip t) = some sp)
    (h8 : env.loads sp = .error m) :
    (extract_pdf env fn).1
      = HttpResult.envelope ⟨false, [], some ("AI extraction failed: " ++ m)⟩ := by
  simp only [extract_pdf, hfn, extract_text_from_pdf_ocr, h4, h1, h2, h3]
  rw [if_neg h5]
  simp only [extract_structured_data_with_gemini, h6,
             parse_of_matchedSpan env.loads (pyStrip t) sp h7, h8]
  norm_num [lookupKey, pyFormat]

/-- C1 witness: the amended claim instantiated at the concrete environment
whose model answer is a brace-led span rejected by json.loads. -/
theorem C1_parse_failure_witness :
    (extract_pdf envParseFail "a.pdf").1
      = HttpResult.envelope ⟨false, [], some ("AI extraction failed: " ++ "Expecting value")⟩ :=
  C1_parse_failure envParseFail "a.pdf"
    ["This is a long enough extracted text from the scan"]
    "\x7bnope" "\x7bnope" "Expecting value"
    (by decide) rfl rfl rfl rfl (by decide) rfl (by decide) rfl

/-- C2 (amended): when rasterization or OCR raises with message m after the
upload was stored, the stage's HTTPException(500, "OCR extraction failed: "
plus m) is caught by the handler's generic exception clause, so the request
is answered with a 200 envelope whose error is
"Processing failed: 500: OCR extraction failed: " plus m, not with an HTTP
500. -/
theorem C2_ocr_failure_envelope (env : Env) (fn : String) (m : String)
    (hfn : pyEndsWith fn ".pdf" = true)
    (h1 : env.tmpCreate = .ok ()) (h2 : env.readUpload = .ok ())
    (h3 : env.writeTemp = .ok ()) (h4 : env.ocrPages = .error m) :
    (extract_pdf env fn).1
      = HttpResult.envelope
          ⟨false, [], some ("Processing failed: 500: OCR extraction failed: " ++ m)⟩ ∧
    (extract_pdf env fn).2.ocrCalled = true := by
  have hs : "Processing failed: " ++ strHTTPExc ⟨500, "OCR extraction failed: " ++ m⟩
      = "Processing failed: 500: OCR extraction failed: " ++ m := by
    simp only [strHTTPExc]
    rw [show (toString (500:Nat) ++ ": " : String) = "500: " from rfl,
        ← String.append_assoc "500: " "OCR extraction failed: " m,
        show ("500: " ++ "OCR extraction failed: " : String)
            = "500: OCR extraction failed: " from rfl,
        ← String.append_assoc,
        show ("Processing failed: " ++ "500: OCR extraction failed: " : String)
            = "Processing failed: 500: OCR extraction failed: " from rfl]
  constructor
  · simp only [extract_pdf, hfn, extract_text_from_pdf_ocr, h4, h1, h2, h3]
    norm_num
    exact hs
  · simp only [extract_pdf, hfn, extract_text_from_pdf_ocr, h4, h1, h2, h3]
    norm_num

/-- C2 witness: the amended claim instantiated at the environment whose
rasterizer raises boom. -/
theorem C2_ocr_failure_envelope_witness :
    (extract_pdf envOcrFail "boom.pdf").1
      = HttpResult.envelope
          ⟨false, [], some ("Processing failed: 500: OCR extraction failed: " ++ "boom")⟩ ∧
    (extract_pdf envOcrFail "boom.pdf").2.ocrCalled = true :=
  C2_ocr_failure_envelope envOcrFail "boom.pdf" "boom" (by decide) rfl rfl rfl rfl

/-- C3 (amended): when the normalized OCR text is empty or its trimmed form
is shorter than ten characters (counting every character, interior spaces
included), the handler returns the fixed no-text failure envelope and the
Gemini call is never attempted. -/
theorem C3_short_circuit (env : Env) (fn : String) (pages : List String)
    (hfn : pyEndsWith fn ".pdf" = true)
    (h1 : env.tmpCreate = .ok ()) (h2 : env.readUpload = .ok ())
    (h3 : env.writeTemp = .ok ()) (h4 : env.ocrPages = .ok pages)
    (h5 : clean_text (concatPages pages) = ""
          ∨ (pyStrip (clean_text (concatPages pages))).length < 10) :
    (extract_pdf env fn).1
      = HttpResult.envelope ⟨false, [], some "No text could be extracted from the PDF."⟩ ∧
    (extract_pdf env fn).2.llmCalled = false := by
  constructor <;>
  · simp only [extract_pdf, hfn, extract_text_from_pdf_ocr, h4, h1, h2, h3]
    rw [if_pos h5]
    norm_num

/-- C3 witness: the amended claim instantiated at the environment whose OCR
yields the two-character text ab. -/
theorem C3_short_circuit_witness :
    (extract_pdf envShort "a.pdf").1
      = HttpResult.envelope ⟨false, [], some "No text could be extracted from the PDF."⟩ ∧
    (extract_pdf envShort "a.pdf").2.llmCalled = false :=
  C3_short_circuit envShort "a.pdf" ["ab"] (by decide) rfl rfl rfl rfl (Or.inr (by decide))

/-- C5: the response parser applies its three cases in order on the trimmed
response text: a text starting with an open brace is handed whole to
json.loads; otherwise, when the fenced-block search finds a capture, the
capture is handed to json.loads; otherwise the result is the single-key
rawResponse wrapper - and in that terminal case the request still succeeds,
with the envelope carrying success=true and the wrapped text. -/
theorem C5_parser_three_cases (loads : String → Except String JsonObj) (rt : String) :
    (pyStartsWith rt "\x7b" = true → parse_llm_response loads rt = loads rt) ∧
    (pyStartsWith rt "\x7b" = false → ∀ cap, fencedJsonSearch rt = some cap →
        parse_llm_response loads rt = loads cap) ∧
    (pyStartsWith rt "\x7b" = false → fencedJsonSearch rt = none →
        parse_llm_response loads rt = .ok [("rawResponse", Json.str rt)]) ∧
    ∀ (env : Env) (fn : String) (pages : List String) (t : String),
      pyEndsWith fn ".pdf" = true →
      env.tmpCreate = .ok () → env.readUpload = .ok () → env.writeTemp = .ok () →
      env.ocrPages = .ok pages →
      ¬(clean_text (concatPages pages) = ""
        ∨ (pyStrip (clean_text (concatPages pages))).length < 10) →
      env.llm (full_prompt (clean_text (concatPages pages)) none) = .text t →
      pyStartsWith (pyStrip t) "\x7b" = false →
      fencedJsonSearch (pyStrip t) = none →
      (extract_pdf env fn).1
        = HttpResult.envelope ⟨true, [("rawResponse", Json.str (pyStrip t))], none⟩ := by
  refine ⟨fun h => by simp [parse_llm_response, h],
          fun h cap hc => by simp [parse_llm_response, h, hc],
          fun h hn => by simp [parse_llm_response, h, hn], ?_⟩
  intro env fn pages t hfn h1 h2 h3 h4 h5 h6 h7 h8
  simp only [extract_pdf, hfn, extract_text_from_pdf_ocr, h4, h1, h2, h3]
  rw [if_neg h5]
  simp only [extract_structured_data_with_gemini, h6, parse_llm_response, h7, h8]
  norm_num [lookupKey]
  rw [if_neg (show ¬("rawResponse" = "error") by decide)]

/-- C5 witness: the three parser cases and the success=true fallback
instantiated at concrete inputs. -/
theorem C5_parser_three_cases_witness :
    parse_llm_response envParseFail.loads "\x7bx" = envParseFail.loads "\x7bx" ∧
    parse_llm_response envParseFail.loads "```json\n\x7b\"a\":1\x7d\n```"
      = envParseFail.loads "\x7b\"a\":1\x7d" ∧
    parse_llm_response envParseFail.loads "no json here"
      = .ok [("rawResponse", Json.str "no json here")] ∧
    (extract_pdf envRawFallback "a.pdf").1
      = HttpResult.envelope ⟨true, [("rawResponse", Json.str (pyStrip "no json here"))], none⟩ :=
  ⟨(C5_parser_three_cases envParseFail.loads "\x7bx").1 (by decide),
   (C5_parser_three_cases envParseFail.loads "```json\n\x7b\"a\":1\x7d\n```").2.1 (by decide)
     "\x7b\"a\":1\x7d" (by decide),
   (C5_parser_three_cases envParseFail.loads "no json here").2.2.1 (by decide) (by decide),
   (C5_parser_three_cases envParseFail.loads "no json here").2.2.2 envRawFallback "a.pdf"
     ["This is a long enough extracted text from the scan"] "no json here"
     (by decide) rfl rfl rfl rfl (by decide) rfl (by decide) (by decide)⟩

/-- C6: the prompt built from text longer than 15000 characters is the
instruction template, the blank-line separator, then exactly the first
15000 characters of the text, unmodified, with nothing further from the
source text after them. -/
theorem C6_truncation (text : String) (h : 15000 < text.length) :
    full_prompt text none = default_prompt ++ "\n\n" ++ pyTake text 15000 ∧
    (pyTake text 15000).toList = text.toList.take 15000 ∧
    (pyTake text 15000).length = 15000 ∧
    pyTake text 15000 ++ (⟨text.toList.drop 15000⟩ : String) = text := by
  refine ⟨rfl, rfl, ?_, ?_⟩
  · show (text.toList.take 15000).length = 15000
    rw [List.length_take]
    have h2 : text.toList.length = text.length := rfl
    omega
  · exact congrArg String.mk (List.take_append_drop 15000 text.toList)

/-- C6 witness: the truncation shape instantiated at a 15001-character
text. -/
theorem C6_truncation_witness :
    15000 < (String.mk (List.replicate 15001 'a')).length ∧
    full_prompt (String.mk (List.replicate 15001 'a')) none
      = default_prompt ++ "\n\n" ++ pyTake (String.mk (List.replicate 15001 'a')) 15000 := by
  have h : 15000 < (String.mk (List.replicate 15001 'a')).length := by
    show 15000 < (List.replicate 15001 'a').length
    rw [List.length_replicate]
    omega
  exact ⟨h, (C6_truncation _ h).1⟩

/-- C9: when the model's response is valid JSON decoding to an object whose
single key is error (value m), the handler returns success=false with error
"AI extraction failed: " plus m - the same envelope it returns when the
Gemini call itself raises with message m, so the two situations are
indistinguishable to the client. -/
theorem C9_error_object (env : Env) (fn : String) (pages : List String) (t m : String)
    (hfn : pyEndsWith fn ".pdf" = true)
    (h1 : env.tmpCreate = .ok ()) (h2 : env.readUpload = .ok ())
    (h3 : env.writeTemp = .ok ()) (h4 : env.ocrPages = .ok pages)
    (h5 : ¬(clean_text (concatPages pages) = ""
            ∨ (pyStrip (clean_text (concatPages pages))).length < 10))
    (h6 : env.llm (full_prompt (clean_text (concatPages pages)) none) = .text t)
    (h7 : pyStartsWith (pyStrip t) "\x7b" = true)
    (h8 : env.loads (pyStrip t) = .ok [("error", Json.str m)]) :
    (extract_pdf env fn).1
      = HttpResult.envelope ⟨false, [], some ("AI extraction failed: " ++ m)⟩ ∧
    (extract_pdf env fn).1
      = (extract_pdf { env with llm := fun _ => GenOutcome.exc m } fn).1 := by
  have hA : (extract_pdf env fn).1
      = HttpResult.envelope ⟨false, [], some ("AI extraction failed: " ++ m)⟩ := by
    simp only [extract_pdf, hfn, extract_text_from_pdf_ocr, h4, h1, h2, h3]
    rw [if_neg h5]
    simp only [extract_structured_data_with_gemini, h6, parse_llm_response, h7, h8]
    norm_num [lookupKey, pyFormat]
  have hB : (extract_pdf { env with llm := fun _ => GenOutcome.exc m } fn).1
      = HttpResult.envelope ⟨false, [], some ("AI extraction failed: " ++ m)⟩ := by
    simp only [extract_pdf, hfn, extract_text_from_pdf_ocr, h4, h1, h2, h3]
    rw [if_neg h5]
    simp only [extract_structured_data_with_gemini]
    norm_num [lookupKey, pyFormat]
  exact ⟨hA, hA.trans hB.symm⟩

/-- C9 witness: the error-object behaviour instantiated at the environment
whose model answers the JSON error object with message x. -/
theorem C9_error_object_witness :
    (extract_pdf envErrJson "a.pdf").1
      = HttpResult.envelope ⟨false, [], some ("AI extraction failed: " ++ "x")⟩ ∧
    (extract_pdf envErrJson "a.pdf").1
      = (extract_pdf { envErrJson with llm := fun _ => GenOutcome.exc "x" } "a.pdf").1 :=
  C9_error_object envErrJson "a.pdf"
    ["This is a long enough extracted text from the scan"]
    "\x7b\"error\": \"x\"\x7d" "x"
    (by decide) rfl rfl rfl rfl (by decide) rfl (by decide) rfl

/-- C10: upload validation is a case-sensitive suffix check.  A filename
not ending in the exact lowercase ".pdf" is answered with HTTP 400 and the
fixed detail before any stage runs; a filename ending in ".pdf" (the bare
".pdf" included) is accepted and always produces an envelope.  "scan.PDF"
is rejected and ".pdf" is accepted. -/
theorem C10_pdf_suffix_validation (env : Env) (fn : String) :
    (pyEndsWith fn ".pdf" = false →
      extract_pdf env fn
        = (HttpResult.httpError 400 "Only PDF files are supported",
           ⟨false, false, false, false⟩)) ∧
    (pyEndsWith fn ".pdf" = true →
      ∃ r, (extract_pdf env fn).1 = HttpResult.envelope r) ∧
    pyEndsWith "scan.PDF" ".pdf" = false ∧
    pyEndsWith ".pdf" ".pdf" = true := by
  refine ⟨fun h => by simp [extract_pdf, h], fun h => ?_, by decide, by decide⟩
  simp only [extract_pdf, h]
  norm_num
  repeat' split
  all_goals exact ⟨_, rfl⟩

/-- C10 witness: the rejection branch instantiated at the uppercase
filename "scan.PDF". -/
theorem C10_pdf_suffix_validation_witness :
    extract_pdf envParseFail "scan.PDF"
      = (HttpResult.httpError 400 "Only PDF files are supported",
         ⟨false, false, false, false⟩) :=
  (C10_pdf_suffix_validation envParseFail "scan.PDF").1 (by decide)

/-- Every word produced by the split scanner is nonempty and free of
whitespace, provided the accumulator is. -/
theorem wordsAux_ok (l : List Char) : ∀ (acc : List Char),
    (∀ c ∈ acc, isPySpace c = false) →
    ∀ w ∈ wordsAux l acc, w ≠ [] ∧ ∀ c ∈ w, isPySpace c = false := by
  induction l with
  | nil =>
    intro acc hacc w hw
    unfold wordsAux at hw
    split at hw
    · simp at hw
    · simp only [List.mem_singleton] at hw
      subst hw
      refine ⟨?_, ?_⟩
      · intro hrev
        rename_i hne
        simp [List.isEmpty_iff] at hne
        exact hne (by simpa using hrev)
      · intro c hc
        exact hacc c (by simpa using hc)
  | cons c t ih =>
    intro acc hacc w hw
    unfold wordsAux at hw
    split at hw
    · split at hw
      · exact ih [] (by simp) w hw
      · rcases List.mem_cons.mp hw with h | h
        · subst h
          rename_i hne
          refine ⟨?_, ?_⟩
          · intro hrev
            simp [List.isEmpty_iff] at hne
            exact hne (by simpa using hrev)
          · intro d hd
            exact hacc d (by simpa using hd)
        · exact ih [] (by simp) w h
    · refine ih (c :: acc) ?_ w hw
      intro d hd
      rcases List.mem_cons.mp hd with h | h
      · subst h
        rename_i hcs
        simpa using hcs
      · exact hacc d h

/-- A non-whitespace head is pushed onto the accumulator. -/
theorem wordsAux_cons_nonws (c : Char) (t acc : List Char) (hc : isPySpace c = false) :
    wordsAux (c :: t) acc = wordsAux t (c :: acc) := by
  simp only [wordsAux]
  rw [if_neg (by simp [hc])]

/-- The scanner moves over a whole whitespace-free word by reversing it
onto the accumulator. -/
theorem wordsAux_through_word (w : List Char) : ∀ (rest acc : List Char),
    (∀ c ∈ w, isPySpace c = false) →
    wordsAux (w ++ rest) acc = wordsAux rest (w.reverse ++ acc) := by
  induction w with
  | nil => intro rest acc _; simp
  | cons c w2 ih =>
    intro rest acc hw
    have hc : isPySpace c = false := hw c (by simp)
    calc wordsAux ((c :: w2) ++ rest) acc
        = wordsAux (w2 ++ rest) (c :: acc) := wordsAux_cons_nonws c (w2 ++ rest) acc hc
      _ = wordsAux rest (w2.reverse ++ (c :: acc)) :=
          ih rest (c :: acc) (fun d hd => hw d (by simp [hd]))
      _ = wordsAux rest ((c :: w2).reverse ++ acc) := by
          simp [List.reverse_cons, List.append_assoc]

/-- Splitting the single-space join of nonempty whitespace-free words
recovers exactly those words: the round trip behind idempotence. -/
theorem wordsAux_join (ws : List (List Char))
    (h : ∀ w ∈ ws, w ≠ [] ∧ ∀ c ∈ w, isPySpace c = false) :
    wordsAux (joinSep ws) [] = ws := by
  induction ws with
  | nil => rfl
  | cons w ws2 ih =>
    match ws2, ih with
    | [], _ =>
      have hw := h w (by simp)
      show wordsAux w [] = [w]
      have h0 : wordsAux w [] = wordsAux (w ++ []) [] := by simp
      rw [h0, wordsAux_through_word w [] [] hw.2]
      simp only [wordsAux]
      rw [if_neg (by simp [hw.1])]
      simp
    | w2 :: ws3, ih =>
      have hw := h w (by simp)
      show wordsAux (w ++ ' ' :: joinSep (w2 :: ws3)) [] = w :: w2 :: ws3
      rw [wordsAux_through_word w (' ' :: joinSep (w2 :: ws3)) [] hw.2]
      simp only [wordsAux]
      rw [if_pos (by simp [isPySpace])]
      rw [if_neg (by simp [hw.1])]
      rw [ih (fun x hx => h x (by simp [hx]))]
      simp

/-- In the single-space join of whitespace-free words, the only whitespace
character is the space separator. -/
theorem joinSep_ws_space (ws : List (List Char))
    (h : ∀ w ∈ ws, w ≠ [] ∧ ∀ c ∈ w, isPySpace c = false) :
    ∀ c ∈ joinSep ws, isPySpace c = true → c = ' ' := by
  induction ws with
  | nil => intro c hc; simp [joinSep] at hc
  | cons w ws2 ih =>
    match ws2, ih with
    | [], _ =>
      intro c hc hws
      have hw := h w (by simp)
      rw [hw.2 c hc] at hws
      cases hws
    | w2 :: ws3, ih =>
      intro c hc hws
      rcases List.mem_append.mp hc with hin | hin
      · have hw := h w (by simp)
        rw [hw.2 c hin] at hws
        cases hws
      · rcases List.mem_cons.mp hin with hsp | hin2
        · exact hsp
        · exact ih (fun x hx => h x (by simp [hx])) c hin2 hws

/-- Prepending a non-whitespace character preserves the
no-adjacent-whitespace property. -/
theorem okRun_cons (a : Char) (l : List Char) (ha : isPySpace a = false)
    (hl : okRun l = true) : okRun (a :: l) = true := by
  cases l with
  | nil => rfl
  | cons b t =>
    show okRun (a :: b :: t) = true
    simp only [okRun]
    simp [ha, hl]

/-- Prepending a whitespace-free word preserves the
no-adjacent-whitespace property. -/
theorem okRun_word_append (w : List Char) (l : List Char)
    (hw : ∀ c ∈ w, isPySpace c = false) (hl : okRun l = true) :
    okRun (w ++ l) = true := by
  induction w with
  | nil => simpa
  | cons c w2 ih =>
    exact okRun_cons c (w2 ++ l) (hw c (by simp))
      (ih (fun d hd => hw d (by simp [hd])))

/-- The single-space join of nonempty whitespace-free words is empty or
starts with a non-whitespace character. -/
theorem joinSep_head_nonws (ws : List (List Char))
    (h : ∀ w ∈ ws, w ≠ [] ∧ ∀ c ∈ w, isPySpace c = false) :
    joinSep ws = [] ∨ ∃ c t, joinSep ws = c :: t ∧ isPySpace c = false := by
  match ws with
  | [] => exact Or.inl rfl
  | w :: ws2 =>
    have hw := h w (by simp)
    match w, hw.1 with
    | c :: w2, _ =>
      have hc : isPySpace c = false := hw.2 c (by simp)
      match ws2 with
      | [] => exact Or.inr ⟨c, w2, rfl, hc⟩
      | w2h :: ws3 => exact Or.inr ⟨c, w2 ++ ' ' :: joinSep (w2h :: ws3), rfl, hc⟩

/-- The single-space join of nonempty whitespace-free words never has two
adjacent whitespace characters: every whitespace run in it has length one. -/
theorem okRun_joinSep (ws : List (List Char))
    (h : ∀ w ∈ ws, w ≠ [] ∧ ∀ c ∈ w, isPySpace c = false) :
    okRun (joinSep ws) = true := by
  induction ws with
  | nil => rfl
  | cons w ws2 ih =>
    match ws2, ih with
    | [], _ =>
      have hw := h w (by simp)
      show okRun (joinSep [w]) = true
      have := okRun_word_append w [] hw.2 rfl
      simpa using this
    | w2 :: ws3, ih =>
      have hw := h w (by simp)
      have hrest : okRun (joinSep (w2 :: ws3)) = true :=
        ih (fun x hx => h x (by simp [hx]))
      have hhead := joinSep_head_nonws (w2 :: ws3) (fun x hx => h x (by simp [hx]))
      have hsp : okRun (' ' :: joinSep (w2 :: ws3)) = true := by
        rcases hhead with h0 | ⟨c, t, heq, hc⟩
        · rw [h0]; rfl
        · rw [heq]
          rw [heq] at hrest
          show okRun (' ' :: c :: t) = true
          simp only [okRun]
          simp [hc, hrest]
      exact okRun_word_append w (' ' :: joinSep (w2 :: ws3)) hw.2 hsp

/-- C7: clean_text is idempotent, and its output collapses whitespace:
every whitespace character it contains is the single space, and no two
adjacent characters are both whitespace (every whitespace run, newlines
included, became a single space). -/
theorem C7_clean_text_normalization (s : String) :
    clean_text (clean_text s) = clean_text s ∧
    (∀ c ∈ (clean_text s).toList, isPySpace c = true → c = ' ') ∧
    okRun (clean_text s).toList = true := by
  have hok := wordsAux_ok s.toList [] (by simp)
  refine ⟨?_, ?_, ?_⟩
  · show (⟨joinSep (wordsOf (clean_text s).toList)⟩ : String)
        = (⟨joinSep (wordsOf s.toList)⟩ : String)
    congr 1
    show joinSep (wordsAux (joinSep (wordsAux s.toList [])) []) = _
    rw [wordsAux_join (wordsAux s.toList []) hok]
    rfl
  · intro c hc hws
    exact joinSep_ws_space (wordsOf s.toList) hok c hc hws
  · exact okRun_joinSep (wordsOf s.toList) hok

/-- C7 witness: idempotence and the collapse property at a string with
leading, trailing and interior whitespace runs. -/
theorem C7_clean_text_normalization_witness :
    clean_text (clean_text "  a \n\n b\tc ") = clean_text "  a \n\n b\tc " ∧
    okRun (clean_text "  a \n\n b\tc ").toList = true :=
  ⟨(C7_clean_text_normalization "  a \n\n b\tc ").1,
   (C7_clean_text_normalization "  a \n\n b\tc ").2.2⟩
